import Mathlib

/-
  Verification of the turn-based strategy-simulation engine
  (source: src/code.py of manishsarkhel/asianpaints_strat_sc).

  The Streamlit session state is embedded as an explicit GameState value,
  monetary and share quantities as rationals, the service score as an
  integer, and the decision-form options as the exact strings offered by
  the radio buttons.  The numpy legacy pseudo-random generator used by the
  scenario draw (np.random.seed(period * 99) followed by np.random.random())
  is embedded as the Mersenne-Twister MT19937 algorithm it implements:
  init_genrand seeding, the first two twisted and tempered 32-bit outputs,
  and the 53-bit double construction.  The embedding was checked against
  the canonical MT19937 reference vector (seed 5489, first output
  3499211612) and the well-known numpy doubles for seeds 42 and 0.
-/

namespace AsianPaints

/-- MAX_PERIODS constant, src/code.py line 7. -/
def MAX_PERIODS : ℕ := 8

/-- STARTING_CASH constant, src/code.py line 8. -/
def STARTING_CASH : ℚ := 500

/-- STARTING_SHARE constant, src/code.py line 9. -/
def STARTING_SHARE : ℚ := 59

/-- BIRLA_SHARE constant, src/code.py line 10. -/
def BIRLA_SHARE : ℚ := 5

/-- DEMAND_BASE constant, src/code.py line 11. -/
def DEMAND_BASE : ℚ := 1000

/-- The two options of the Delivery Frequency radio button (line 161). -/
inductive DeliveryFreq
  | responsive4x
  | efficient1x
  deriving DecidableEq

/-- The exact option string passed to calculate_results for a delivery choice. -/
def DeliveryFreq.str : DeliveryFreq → String
  | .responsive4x => "4x Daily (Responsive)"
  | .efficient1x => "1x Daily (Efficient)"

/-- The two options of the Stocking Policy radio button (line 165). -/
inductive InventoryPolicy
  | highBuffer
  | leanEfficient
  deriving DecidableEq

/-- The exact option string passed to calculate_results for an inventory choice. -/
def InventoryPolicy.str : InventoryPolicy → String
  | .highBuffer => "High Buffer (Responsive)"
  | .leanEfficient => "Lean (Efficient)"

/-- The two options of the Commissions radio button (line 169). -/
inductive DealerIncentive
  | matchBirla
  | standard
  deriving DecidableEq

/-- The exact option string passed to calculate_results for an incentive choice. -/
def DealerIncentive.str : DealerIncentive → String
  | .matchBirla => "Match Birla (High)"
  | .standard => "Standard (Low)"

/-- The three demand regimes produced by the scenario generator (lines 143-151). -/
inductive ScenarioType
  | stable
  | volatile
  | festivalSeason
  deriving DecidableEq

/-- The exact scenario string passed to calculate_results. -/
def ScenarioType.str : ScenarioType → String
  | .stable => "Stable"
  | .volatile => "Volatile"
  | .festivalSeason => "Festival Season"

/-- Logistics cost lookup, src/code.py line 33. -/
def logistics_cost (delivery_freq : String) : ℚ :=
  if delivery_freq = "4x Daily (Responsive)" then 80 else 30

/-- Inventory cost lookup, src/code.py line 36. -/
def inventory_cost (inventory_policy : String) : ℚ :=
  if inventory_policy = "High Buffer (Responsive)" then 50 else 20

/-- Incentive cost lookup, src/code.py line 39. -/
def incentive_cost (dealer_incentive : String) : ℚ :=
  if dealer_incentive = "Match Birla (High)" then 60 else 20

/-- total_opex, src/code.py line 41. -/
def total_opex (df ip di : String) : ℚ :=
  logistics_cost df + inventory_cost ip + incentive_cost di

/-- Base service score before the volatility adjustment, src/code.py lines 45-60. -/
def base_service_score (df ip di : String) : ℤ :=
  (if df = "4x Daily (Responsive)" then 40 else 10) +
    (if ip = "High Buffer (Responsive)" then 40 else 10) +
    (if di = "Match Birla (High)" then 20 else 5)

/-- Service score after the volatility penalties but before clamping,
src/code.py lines 62-68. -/
def service_score_raw (df ip di dt : String) : ℤ :=
  if dt ≠ "Stable" then
    base_service_score df ip di - (if ip = "Lean (Efficient)" then 30 else 0) -
      (if df = "1x Daily (Efficient)" then 20 else 0)
  else base_service_score df ip di

/-- Clamped service score, src/code.py line 71. -/
def service_score (df ip di dt : String) : ℤ :=
  max 0 (min 100 (service_score_raw df ip di dt))

/-- share_change from the score thresholds, src/code.py lines 75-84. -/
def share_change (df ip di dt : String) : ℚ :=
  if 85 ≤ service_score df ip di dt then 1 / 2
  else if 60 ≤ service_score df ip di dt then -(3 / 2)
  else -5

/-- The feedback string chosen with the share change, src/code.py lines 76-84. -/
def feedback (df ip di dt : String) : String :=
  if 85 ≤ service_score df ip di dt then "Dealers are happy. Availability is high."
  else if 60 ≤ service_score df ip di dt then
    "Dealers are grumbling. Some are stocking Birla Opus alongside yours."
  else
    "DISASTER! Stockouts during peak demand. Dealers are furious and aggressively pushing Birla Opus."

/-- demand_multiplier, src/code.py line 88. -/
def demand_multiplier (dt : String) : ℚ :=
  if dt = "Festival Season" then 3 / 2 else 1

/-- actual_revenue, src/code.py line 89.  The market share read from the
session state is passed explicitly. -/
def actual_revenue (df ip di dt : String) (market_share : ℚ) : ℚ :=
  (DEMAND_BASE * demand_multiplier dt) * (market_share / 100) *
    ((service_score df ip di dt : ℚ) / 100) * (1 / 2)

/-- net_profit, src/code.py line 91. -/
def net_profit (df ip di dt : String) (market_share : ℚ) : ℚ :=
  actual_revenue df ip di dt market_share - total_opex df ip di

/-- The tuple returned by calculate_results, src/code.py line 93. -/
structure TurnResult where
  net_profit : ℚ
  share_change : ℚ
  feedback : String
  total_opex : ℚ
  actual_revenue : ℚ
  deriving DecidableEq

/-- calculate_results, src/code.py lines 29-93, with the session market
share made an explicit argument. -/
def calculate_results (df ip di dt : String) (market_share : ℚ) : TurnResult :=
  ⟨net_profit df ip di dt market_share, share_change df ip di dt,
    feedback df ip di dt, total_opex df ip di, actual_revenue df ip di dt market_share⟩

/-- One step of the init_genrand recurrence of MT19937, reduced modulo 2^32
(the numpy legacy seeding used by np.random.seed with a scalar). -/
def mtNext (i x : Nat) : Nat := (1812433253 * (x ^^^ (x >>> 30)) + i) % 4294967296

/-- Word i of the MT19937 state after init_genrand(seed). -/
def mtWord (seed : Nat) : Nat → Nat
  | 0 => seed % 4294967296
  | i + 1 => mtNext (i + 1) (mtWord seed i)

/-- The conditional xor constant of the MT19937 twist (0x9908b0df). -/
def mag01 (y : Nat) : Nat := if y % 2 = 1 then 2567483615 else 0

/-- The combined word y of the MT19937 twist at index k. -/
def twistY (seed k : Nat) : Nat :=
  (mtWord seed k &&& 2147483648) ||| (mtWord seed (k + 1) &&& 2147483647)

/-- State word k after the first MT19937 twist (only small k are drawn). -/
def twistedWord (seed k : Nat) : Nat :=
  mtWord seed (k + 397) ^^^ (twistY seed k >>> 1) ^^^ mag01 (twistY seed k)

/-- First tempering step of MT19937. -/
def temper1 (x : Nat) : Nat := x ^^^ (x >>> 11)

/-- Second tempering step of MT19937 (mask 0x9d2c5680). -/
def temper2 (x : Nat) : Nat := x ^^^ ((x <<< 7) &&& 2636928640)

/-- Third tempering step of MT19937 (mask 0xefc60000). -/
def temper3 (x : Nat) : Nat := x ^^^ ((x <<< 15) &&& 4022730752)

/-- Fourth tempering step of MT19937. -/
def temper4 (x : Nat) : Nat := x ^^^ (x >>> 18)

/-- Full MT19937 tempering. -/
def temper (x : Nat) : Nat := temper4 (temper3 (temper2 (temper1 x)))

/-- The k-th 32-bit output of MT19937 after seeding (k < 624). -/
def mtOutput (seed k : Nat) : Nat := temper (twistedWord seed k)

/-- np.random.random() after np.random.seed(seed): the 53-bit double
(a * 2^26 + b) / 2^53 built from the first two generator outputs. -/
def random_sample (seed : Nat) : ℚ :=
  (((mtOutput seed 0 >>> 5) * 67108864 + (mtOutput seed 1 >>> 6) : ℕ) : ℚ) / 9007199254740992

/-- scenario_roll for a period, src/code.py lines 141-142. -/
def scenario_roll (period : ℕ) : ℚ := random_sample (period * 99)

/-- The scenario string drawn for a period, src/code.py lines 143-151. -/
def scenario (period : ℕ) : String :=
  if scenario_roll period < 3 / 10 then "Stable"
  else if scenario_roll period < 7 / 10 then "Volatile"
  else "Festival Season"

/-- One appended history record, src/code.py lines 185-191. -/
structure HistoryRecord where
  quarter : ℕ
  scenario : String
  strategy : String
  profit : ℚ
  market_share_end : ℚ
  deriving DecidableEq

/-- The session-state fields of one run, src/code.py lines 14-22. -/
structure GameState where
  period : ℕ
  cash : ℚ
  market_share : ℚ
  birla_share : ℚ
  history : List HistoryRecord
  game_over : Bool
  last_feedback : String
  deriving DecidableEq

/-- init_game, src/code.py lines 14-22. -/
def init_game : GameState :=
  ⟨1, STARTING_CASH, STARTING_SHARE, BIRLA_SHARE, [], false,
    "Welcome, Vikram. Birla Opus has just launched. Your dealers are anxious. Make your Q1 decisions."⟩

/-- Rounding to two decimal places as used for the history record
(the float half-to-even rounding of the host language is modelled as exact
rational rounding; no claim depends on the tie-breaking rule). -/
def round2 (q : ℚ) : ℚ := (round (q * 100) : ℚ) / 100

/-- calculate_results as the source invokes it: the market share factor of
the revenue is read out of the ambient session state (src/code.py line 89),
here made an explicit GameState argument. -/
def calculate_results_st (s : GameState) (df ip di dt : String) : TurnResult :=
  calculate_results df ip di dt s.market_share

/-- The submitted-turn block, src/code.py lines 173-198: draw the scenario
for the current period, run calculate_results on the pre-turn market share,
accumulate cash, transfer share, append the history record, increment the
period and evaluate the game-over condition. -/
def submitTurn (s : GameState) (delivery inventory incentive : String) : GameState × TurnResult :=
  let sc := scenario s.period
  let r := calculate_results delivery inventory incentive sc s.market_share
  let cash2 := s.cash + r.net_profit
  let share2 := s.market_share + r.share_change
  let birla2 := s.birla_share - r.share_change
  let hist2 := s.history ++
    [⟨s.period, sc, if delivery.startsWith ("4x") then "Responsive" else "Efficient",
      round2 r.net_profit, round2 share2⟩]
  let period2 := s.period + 1
  let over2 := if period2 > MAX_PERIODS ∨ cash2 < 0 ∨ share2 < 40 then true else s.game_over
  (⟨period2, cash2, share2, birla2, hist2, over2, r.feedback⟩, r)

/-- submitDecision: when game_over is set the source renders the game-over
screen and stops before the decision form exists (src/code.py lines 125-137),
so submission is refused exactly on terminal states; this refusal is the
InvalidStateError of the interface contract.  On a non-terminal state the
submitted block (lines 173-198) always runs to completion. -/
def submitDecision (s : GameState) (delivery inventory incentive : String) :
    Except String (GameState × TurnResult) :=
  if s.game_over then Except.error ("InvalidStateError")
  else Except.ok (submitTurn s delivery inventory incentive)

/-- States reachable by starting a run and submitting decisions only while
the state is not terminal. -/
inductive Reachable : GameState → Prop
  | init : Reachable init_game
  | step (s : GameState) (d : DeliveryFreq) (i : InventoryPolicy) (n : DealerIncentive) :
      Reachable s → s.game_over = false → Reachable (submitTurn s d.str i.str n.str).1

lemma share_change_cases (df ip di dt : String) :
    share_change df ip di dt = 1 / 2 ∨ share_change df ip di dt = -(3 / 2) ∨
      share_change df ip di dt = -5 := by
  unfold share_change
  split_ifs <;> simp

lemma neg_five_le_share_change (df ip di dt : String) : -5 ≤ share_change df ip di dt := by
  rcases share_change_cases df ip di dt with h | h | h <;> rw [h] <;> norm_num

lemma submitTurn_fst_market_share (s : GameState) (a b c : String) :
    (submitTurn s a b c).1.market_share =
      s.market_share + share_change a b c (scenario s.period) := rfl

lemma submitTurn_fst_period (s : GameState) (a b c : String) :
    (submitTurn s a b c).1.period = s.period + 1 := rfl

lemma submitTurn_fst_cash (s : GameState) (a b c : String) :
    (submitTurn s a b c).1.cash =
      s.cash + net_profit a b c (scenario s.period) s.market_share := rfl

lemma submitTurn_fst_game_over (s : GameState) (a b c : String) :
    (submitTurn s a b c).1.game_over =
      if s.period + 1 > MAX_PERIODS ∨
          s.cash + net_profit a b c (scenario s.period) s.market_share < 0 ∨
          s.market_share + share_change a b c (scenario s.period) < 40 then true
      else s.game_over := rfl

/-- Claim C1: for every decision set, scenario and current own share, the
share delta returned by the engine is determined from the clamped service
score by the 85/60 thresholds, with the Excellent, Warning and Crisis
feedback tiers attached exactly as the thresholds dictate, and its value is
always one of 0.5, -1.5 and -5.0 and never anything else. -/
theorem shareDelta_threshold_policy (d : DeliveryFreq) (i : InventoryPolicy)
    (n : DealerIncentive) (sc : ScenarioType) (share : ℚ) :
    ((calculate_results d.str i.str n.str sc.str share).share_change = 1 / 2 ∨
      (calculate_results d.str i.str n.str sc.str share).share_change = -(3 / 2) ∨
      (calculate_results d.str i.str n.str sc.str share).share_change = -5) ∧
    (calculate_results d.str i.str n.str sc.str share).share_change =
      (if 85 ≤ service_score d.str i.str n.str sc.str then 1 / 2
       else if 60 ≤ service_score d.str i.str n.str sc.str then -(3 / 2)
       else -5) ∧
    (calculate_results d.str i.str n.str sc.str share).feedback =
      (if 85 ≤ service_score d.str i.str n.str sc.str then
        "Dealers are happy. Availability is high."
       else if 60 ≤ service_score d.str i.str n.str sc.str then
        "Dealers are grumbling. Some are stocking Birla Opus alongside yours."
       else
        "DISASTER! Stockouts during peak demand. Dealers are furious and aggressively pushing Birla Opus.") :=
  ⟨share_change_cases d.str i.str n.str sc.str, rfl, rfl⟩

/-- Claim C2: the revenue returned by the engine equals
1000 * m * (currentOwnShare/100) * (serviceScore/100) * 0.5 with m = 1.5
exactly for the Festival Season scenario and m = 1 otherwise, profit is
revenue minus opex, and a submitted turn evaluates the engine on the market
share held before the delta of the turn is applied. -/
theorem revenue_profit_formula (d : DeliveryFreq) (i : InventoryPolicy)
    (n : DealerIncentive) (sc : ScenarioType) (share : ℚ) (s : GameState) :
    (calculate_results d.str i.str n.str sc.str share).actual_revenue =
      1000 * (if sc = ScenarioType.festivalSeason then (3 : ℚ) / 2 else 1) * (share / 100) *
        ((service_score d.str i.str n.str sc.str : ℚ) / 100) * (1 / 2) ∧
    (calculate_results d.str i.str n.str sc.str share).net_profit =
      (calculate_results d.str i.str n.str sc.str share).actual_revenue -
        (calculate_results d.str i.str n.str sc.str share).total_opex ∧
    (submitTurn s d.str i.str n.str).2 =
      calculate_results d.str i.str n.str (scenario s.period) s.market_share := by
  refine ⟨?_, rfl, rfl⟩
  cases sc <;>
    simp +decide [calculate_results, actual_revenue, demand_multiplier, DEMAND_BASE,
      ScenarioType.str]

/-- Claim C4: for every combination of the three decision levers and every
scenario, the clamped service score lies between 0 and 100. -/
theorem serviceScore_in_range (d : DeliveryFreq) (i : InventoryPolicy)
    (n : DealerIncentive) (sc : ScenarioType) :
    0 ≤ service_score d.str i.str n.str sc.str ∧
      service_score d.str i.str n.str sc.str ≤ 100 := by
  cases d <;> cases i <;> cases n <;> cases sc <;> exact ⟨by decide, by decide⟩

/-- Claim C5, counterexample: with Efficient delivery, Lean inventory and
the Match-Birla incentive, the returned (clamped) service score under
Volatile is 0 while under Stable it is 40, so the returned score is 40
lower, not 50 lower, refuting the claim as stated. -/
theorem serviceScore_drop_fifty_counterexample :
    service_score (DeliveryFreq.efficient1x.str) (InventoryPolicy.leanEfficient.str)
        (DealerIncentive.matchBirla.str) (ScenarioType.volatile.str) = 0 ∧
    service_score (DeliveryFreq.efficient1x.str) (InventoryPolicy.leanEfficient.str)
        (DealerIncentive.matchBirla.str) (ScenarioType.stable.str) = 40 ∧
    ¬(service_score (DeliveryFreq.efficient1x.str) (InventoryPolicy.leanEfficient.str)
          (DealerIncentive.matchBirla.str) (ScenarioType.volatile.str) =
        service_score (DeliveryFreq.efficient1x.str) (InventoryPolicy.leanEfficient.str)
          (DealerIncentive.matchBirla.str) (ScenarioType.stable.str) - 50) := by
  refine ⟨by decide, by decide, by decide⟩

/-- Claim C5, amended: with Lean inventory and Efficient delivery, under
Volatile or Festival Season the service score before clamping is exactly 50
lower than under Stable, and the returned clamped score is 0 (so the
returned score is lower by the whole Stable score, 40 or 25, not by 50). -/
theorem serviceScore_raw_drop_fifty (n : DealerIncentive) (sc : ScenarioType)
    (h : sc ≠ ScenarioType.stable) :
    service_score_raw (DeliveryFreq.efficient1x.str) (InventoryPolicy.leanEfficient.str)
        n.str sc.str =
      service_score_raw (DeliveryFreq.efficient1x.str) (InventoryPolicy.leanEfficient.str)
        n.str (ScenarioType.stable.str) - 50 ∧
    service_score (DeliveryFreq.efficient1x.str) (InventoryPolicy.leanEfficient.str)
        n.str sc.str = 0 := by
  cases sc with
  | stable => exact absurd rfl h
  | volatile => cases n <;> exact ⟨by decide, by decide⟩
  | festivalSeason => cases n <;> exact ⟨by decide, by decide⟩

/-- Witness for the amended claim C5 at the Match-Birla incentive under the
Volatile scenario. -/
theorem serviceScore_raw_drop_fifty_witness :
    service_score_raw (DeliveryFreq.efficient1x.str) (InventoryPolicy.leanEfficient.str)
        (DealerIncentive.matchBirla.str) (ScenarioType.volatile.str) =
      service_score_raw (DeliveryFreq.efficient1x.str) (InventoryPolicy.leanEfficient.str)
        (DealerIncentive.matchBirla.str) (ScenarioType.stable.str) - 50 ∧
    service_score (DeliveryFreq.efficient1x.str) (InventoryPolicy.leanEfficient.str)
        (DealerIncentive.matchBirla.str) (ScenarioType.volatile.str) = 0 :=
  serviceScore_raw_drop_fifty DealerIncentive.matchBirla ScenarioType.volatile (by decide)

/-- Claim C3: starting from a non-terminal state, the state produced by a
submitted turn is terminal exactly when the incremented period exceeds 8, or
the updated cash is negative, or the updated own share is below 40. -/
theorem turn_terminal_iff (s : GameState) (d : DeliveryFreq) (i : InventoryPolicy)
    (n : DealerIncentive) (h : s.game_over = false) :
    (submitTurn s d.str i.str n.str).1.game_over = true ↔
      (8 < (submitTurn s d.str i.str n.str).1.period ∨
        (submitTurn s d.str i.str n.str).1.cash < 0 ∨
        (submitTurn s d.str i.str n.str).1.market_share < 40) := by
  rw [submitTurn_fst_game_over, h, submitTurn_fst_period, submitTurn_fst_cash,
    submitTurn_fst_market_share]
  by_cases hc : s.period + 1 > MAX_PERIODS ∨
      s.cash + net_profit d.str i.str n.str (scenario s.period) s.market_share < 0 ∨
      s.market_share + share_change d.str i.str n.str (scenario s.period) < 40
  · rw [if_pos hc]
    simpa [MAX_PERIODS] using hc
  · rw [if_neg hc]
    simpa [MAX_PERIODS] using hc

/-- Witness for claim C3 at the initial state with the all-efficient
decision set. -/
theorem turn_terminal_iff_witness :
    (submitTurn init_game (DeliveryFreq.efficient1x.str) (InventoryPolicy.leanEfficient.str)
        (DealerIncentive.standard.str)).1.game_over = true ↔
      (8 < (submitTurn init_game (DeliveryFreq.efficient1x.str)
          (InventoryPolicy.leanEfficient.str) (DealerIncentive.standard.str)).1.period ∨
        (submitTurn init_game (DeliveryFreq.efficient1x.str)
          (InventoryPolicy.leanEfficient.str) (DealerIncentive.standard.str)).1.cash < 0 ∨
        (submitTurn init_game (DeliveryFreq.efficient1x.str)
          (InventoryPolicy.leanEfficient.str) (DealerIncentive.standard.str)).1.market_share < 40) :=
  turn_terminal_iff init_game DeliveryFreq.efficient1x InventoryPolicy.leanEfficient
    DealerIncentive.standard rfl

/-- Claim C6: the engine output depends only on the declared inputs.  Two
session states agreeing on the market share give identical TurnResult
values for every choice of the three levers and every scenario, whatever
their cash, period, history, feedback or terminal flag. -/
theorem evaluate_no_hidden_state (d : DeliveryFreq) (i : InventoryPolicy)
    (n : DealerIncentive) (sc : ScenarioType) (s1 s2 : GameState)
    (h : s1.market_share = s2.market_share) :
    calculate_results_st s1 d.str i.str n.str sc.str =
      calculate_results_st s2 d.str i.str n.str sc.str := by
  unfold calculate_results_st
  rw [h]

/-- Witness for claim C6: the initial state and a state with different
period, cash, history and terminal flag but the same market share. -/
theorem evaluate_no_hidden_state_witness :
    calculate_results_st init_game (DeliveryFreq.responsive4x.str)
        (InventoryPolicy.highBuffer.str) (DealerIncentive.matchBirla.str)
        (ScenarioType.stable.str) =
      calculate_results_st
        ⟨7, 0, STARTING_SHARE, 25, [], true, "final quarter"⟩
        (DeliveryFreq.responsive4x.str) (InventoryPolicy.highBuffer.str)
        (DealerIncentive.matchBirla.str) (ScenarioType.stable.str) :=
  evaluate_no_hidden_state DeliveryFreq.responsive4x InventoryPolicy.highBuffer
    DealerIncentive.matchBirla ScenarioType.stable init_game
    ⟨7, 0, STARTING_SHARE, 25, [], true, "final quarter"⟩ rfl

/-- Claim C8: a submitted turn moves the competitor share by exactly the
negation of the move of the own share: an exact zero-sum transfer. -/
theorem zero_sum_share_transfer (s : GameState) (d : DeliveryFreq)
    (i : InventoryPolicy) (n : DealerIncentive) :
    (submitTurn s d.str i.str n.str).1.birla_share - s.birla_share =
      -((submitTurn s d.str i.str n.str).1.market_share - s.market_share) := by
  show s.birla_share - share_change d.str i.str n.str (scenario s.period) - s.birla_share =
    -(s.market_share + share_change d.str i.str n.str (scenario s.period) - s.market_share)
  ring

/-- Claim C9: submitting a decision signals InvalidStateError exactly on a
terminal state and otherwise returns the completed turn; the engine itself
is a total function of its inputs, so evaluation never fails. -/
theorem submitDecision_error_iff (s : GameState) (d : DeliveryFreq)
    (i : InventoryPolicy) (n : DealerIncentive) :
    submitDecision s d.str i.str n.str =
      (if s.game_over then Except.error ("InvalidStateError")
       else Except.ok (submitTurn s d.str i.str n.str)) ∧
    ((∃ e, submitDecision s d.str i.str n.str = Except.error e) ↔ s.game_over = true) := by
  refine ⟨rfl, ?_⟩
  cases h : s.game_over with
  | false => simp [submitDecision, h]
  | true => simp [submitDecision, h]

lemma reachable_share_invariant (s : GameState) (h : Reachable s) :
    35 ≤ s.market_share ∧ (s.game_over = false → 40 ≤ s.market_share) := by
  induction h with
  | init =>
      have e : init_game.market_share = 59 := rfl
      exact ⟨by rw [e]; norm_num, fun _ => by rw [e]; norm_num⟩
  | step s d i n hr hov ih =>
      have h40 : 40 ≤ s.market_share := ih.2 hov
      have hd := neg_five_le_share_change d.str i.str n.str (scenario s.period)
      constructor
      · rw [submitTurn_fst_market_share]
        linarith
      · intro hov2
        rw [submitTurn_fst_market_share]
        by_contra hlt
        push_neg at hlt
        rw [submitTurn_fst_game_over, hov, if_pos (Or.inr (Or.inr hlt))] at hov2
        exact absurd hov2 (by simp)

/-- Claim C10: every state reachable by starting a run and submitting turns
only while non-terminal keeps an own share of at least 35: a turn is only
processed from a state whose share survived the 40-floor check, and the
largest per-turn loss is 5. -/
theorem reachable_share_lower_bound (s : GameState) (h : Reachable s) :
    35 ≤ s.market_share :=
  (reachable_share_invariant s h).1

/-- Witness for claim C10 at the initial state of a run. -/
theorem reachable_share_lower_bound_witness : 35 ≤ init_game.market_share :=
  reachable_share_lower_bound init_game Reachable.init

lemma shiftRight_le_self (x k : Nat) : x >>> k ≤ x := by
  rw [Nat.shiftRight_eq_div_pow]
  exact Nat.div_le_self _ _

lemma mtWord_lt (seed i : Nat) : mtWord seed i < 2 ^ 32 := by
  have e : (2 : ℕ) ^ 32 = 4294967296 := by norm_num
  cases i with
  | zero => rw [e]; exact Nat.mod_lt _ (by norm_num)
  | succ k => rw [e]; exact Nat.mod_lt _ (by norm_num)

lemma mag01_lt (y : Nat) : mag01 y < 2 ^ 32 := by
  unfold mag01
  split_ifs <;> norm_num

lemma twistY_lt (seed k : Nat) : twistY seed k < 2 ^ 32 := by
  unfold twistY
  exact Nat.or_lt_two_pow
    (lt_of_le_of_lt Nat.and_le_right (by norm_num))
    (lt_of_le_of_lt Nat.and_le_right (by norm_num))

lemma twistedWord_lt (seed k : Nat) : twistedWord seed k < 2 ^ 32 := by
  unfold twistedWord
  exact Nat.xor_lt_two_pow
    (Nat.xor_lt_two_pow (mtWord_lt seed (k + 397))
      (lt_of_le_of_lt (shiftRight_le_self _ _) (twistY_lt seed k)))
    (mag01_lt _)

lemma temper_lt (x : Nat) (h : x < 2 ^ 32) : temper x < 2 ^ 32 := by
  unfold temper temper1 temper2 temper3 temper4
  have h1 : x ^^^ (x >>> 11) < 2 ^ 32 :=
    Nat.xor_lt_two_pow h (lt_of_le_of_lt (shiftRight_le_self _ _) h)
  have h2 : x ^^^ (x >>> 11) ^^^ (((x ^^^ (x >>> 11)) <<< 7) &&& 2636928640) < 2 ^ 32 :=
    Nat.xor_lt_two_pow h1 (lt_of_le_of_lt Nat.and_le_right (by norm_num))
  have h3 : x ^^^ (x >>> 11) ^^^ (((x ^^^ (x >>> 11)) <<< 7) &&& 2636928640) ^^^
      (((x ^^^ (x >>> 11) ^^^ (((x ^^^ (x >>> 11)) <<< 7) &&& 2636928640)) <<< 15) &&&
        4022730752) < 2 ^ 32 :=
    Nat.xor_lt_two_pow h2 (lt_of_le_of_lt Nat.and_le_right (by norm_num))
  exact Nat.xor_lt_two_pow h3 (lt_of_le_of_lt (shiftRight_le_self _ _) h3)

lemma mtOutput_lt (seed k : Nat) : mtOutput seed k < 2 ^ 32 :=
  temper_lt _ (twistedWord_lt seed k)

lemma random_sample_nonneg (seed : Nat) : 0 ≤ random_sample seed := by
  unfold random_sample
  positivity

lemma random_sample_lt_one (seed : Nat) : random_sample seed < 1 := by
  unfold random_sample
  rw [div_lt_one (by norm_num)]
  have ha : mtOutput seed 0 >>> 5 < 134217728 := by
    have h := mtOutput_lt seed 0
    rw [Nat.shiftRight_eq_div_pow]
    norm_num at h ⊢
    omega
  have hb : mtOutput seed 1 >>> 6 < 67108864 := by
    have h := mtOutput_lt seed 1
    rw [Nat.shiftRight_eq_div_pow]
    norm_num at h ⊢
    omega
  have hn : (mtOutput seed 0 >>> 5) * 67108864 + (mtOutput seed 1 >>> 6) <
      9007199254740992 := by
    have := Nat.mul_le_mul_right 67108864 (Nat.le_of_lt_succ ha)
    omega
  exact_mod_cast hn

/-- Claim C7: for every period number the scenario generator yields exactly
one scenario, reproducibly (it is a function of the period number alone,
the source reseeding the generator with period * 99 before every draw), by
deriving a pseudo-random value in the interval from 0 inclusive to 1
exclusive and partitioning it into the bands below 0.3 for Stable, 0.3 to
0.7 for Volatile, and 0.7 upward for Festival Season. -/
theorem scenario_generator_bands (p : ℕ) :
    0 ≤ scenario_roll p ∧ scenario_roll p < 1 ∧
    ((scenario_roll p < 3 / 10 ∧ scenario p = "Stable") ∨
      (3 / 10 ≤ scenario_roll p ∧ scenario_roll p < 7 / 10 ∧ scenario p = "Volatile") ∨
      (7 / 10 ≤ scenario_roll p ∧ scenario p = "Festival Season")) := by
  refine ⟨random_sample_nonneg _, random_sample_lt_one _, ?_⟩
  unfold scenario
  rcases lt_or_le (scenario_roll p) (3 / 10) with h1 | h1
  · exact Or.inl ⟨h1, if_pos h1⟩
  · rcases lt_or_le (scenario_roll p) (7 / 10) with h2 | h2
    · refine Or.inr (Or.inl ⟨h1, h2, ?_⟩)
      rw [if_neg (not_lt.mpr h1), if_pos h2]
    · refine Or.inr (Or.inr ⟨h2, ?_⟩)
      rw [if_neg (not_lt.mpr h1), if_neg (not_lt.mpr h2)]

/-- Worked example of the engine: all-responsive decisions under Stable at
share 59 give score 100, delta +0.5, opex 190, revenue 295 and profit 105. -/
theorem engine_example_all_responsive :
    service_score (DeliveryFreq.responsive4x.str) (InventoryPolicy.highBuffer.str)
        (DealerIncentive.matchBirla.str) (ScenarioType.stable.str) = 100 ∧
    calculate_results (DeliveryFreq.responsive4x.str) (InventoryPolicy.highBuffer.str)
        (DealerIncentive.matchBirla.str) (ScenarioType.stable.str) STARTING_SHARE =
      ⟨105, 1 / 2, "Dealers are happy. Availability is high.", 190, 295⟩ := by
  have hs : service_score (DeliveryFreq.responsive4x.str) (InventoryPolicy.highBuffer.str)
      (DealerIncentive.matchBirla.str) (ScenarioType.stable.str) = 100 := by decide
  refine ⟨hs, ?_⟩
  simp +decide [calculate_results, TurnResult.mk.injEq, net_profit, actual_revenue,
    total_opex, logistics_cost, inventory_cost, incentive_cost, demand_multiplier,
    feedback, share_change, DEMAND_BASE, STARTING_SHARE, hs]
  norm_num

/-- Worked example of the engine: all-efficient decisions under Festival
Season at share 59 give score 0, delta -5, opex 70, revenue 0, profit -70. -/
theorem engine_example_all_efficient :
    service_score (DeliveryFreq.efficient1x.str) (InventoryPolicy.leanEfficient.str)
        (DealerIncentive.standard.str) (ScenarioType.festivalSeason.str) = 0 ∧
    calculate_results (DeliveryFreq.efficient1x.str) (InventoryPolicy.leanEfficient.str)
        (DealerIncentive.standard.str) (ScenarioType.festivalSeason.str) STARTING_SHARE =
      ⟨-70, -5,
        "DISASTER! Stockouts during peak demand. Dealers are furious and aggressively pushing Birla Opus.",
        70, 0⟩ := by
  have hs : service_score (DeliveryFreq.efficient1x.str) (InventoryPolicy.leanEfficient.str)
      (DealerIncentive.standard.str) (ScenarioType.festivalSeason.str) = 0 := by decide
  refine ⟨hs, ?_⟩
  simp +decide [calculate_results, TurnResult.mk.injEq, net_profit, actual_revenue,
    total_opex, logistics_cost, inventory_cost, incentive_cost, demand_multiplier,
    feedback, share_change, DEMAND_BASE, STARTING_SHARE, hs]
  norm_num

end AsianPaints
